import Mathlib

/-!
Verification of the directory scanner in `src/read_evtx_files.py`.

The script performs one scan: it checks that the target path exists,
enumerates the immediate entries matching the glob pattern `*.evtx`,
and for each match prints the name, the size obtained from `stat()`,
and the result of a signature check on the first bytes of the file.

Shallow embedding: the filesystem state visible to one scan is modelled
by `Target` (missing path / existing non-directory / directory with a
list of immediate entries).  Each entry carries the outcomes of the two
fallible system interactions the script performs on it: `statResult`
for `evtx_file.stat().st_size` (line 34, outside any try block) and
`openResult` for `open(evtx_file, mode rb)` together with `f.read(8)`
(lines 41-42, inside the try block), plus the byte `content` returned
when the read succeeds.  Console output is modelled as a list of
`Report` events; an uncaught Python exception is modelled as the
`Option String` component of the result.
-/

deriving instance DecidableEq for Except

namespace EvtxScan

/-- The fixed 4-byte magic value compared at line 43 of the source:
the bytes of the literal written there, E, l, f, F. -/
def MAGIC : List Nat := [69, 108, 102, 70]

/-- One immediate entry of the scanned directory, together with the
outcomes of the system calls the scan may perform on it.
`content` is the byte sequence of the file (irrelevant when
`openResult` is an error); `statResult` is the size from
`stat().st_size`, or the message of the exception `stat` raises;
`openResult` is `none` when `open` plus `read(8)` succeeds, and the
exception message when it fails (for a directory entry, the Python
builtin open with mode rb raises IsADirectoryError, so `isDir = true` entries
have `openResult = some msg` on a real filesystem). -/
structure Entry where
  name : String
  isDir : Bool
  content : List Nat
  statResult : Except String Nat
  openResult : Option String
  deriving Repr, DecidableEq

/-- The state of the scan target path: it does not exist, it exists but
is not a directory, or it is a directory with the given immediate
entries (in filesystem enumeration order). -/
inductive Target where
  | missing : Target
  | nonDir : Target
  | dir : List Entry → Target
  deriving Repr, DecidableEq

/-- One console report event, one constructor per distinct `print` of
the source (lines 19, 26, 29, 30, 33, 34, 44, 46, 48). -/
inductive Report where
  | errorMissing : String → Report
  | noFiles : String → Report
  | foundCount : Nat → Report
  | separator : Report
  | fileName : String → Report
  | fileSize : Nat → Report
  | validSignature : Report
  | warningInvalid : Report
  | errorReading : String → Report
  deriving Repr, DecidableEq

/-- The filter applied by `dir_path.glob("*.evtx")` at line 23 to the
name of each immediate entry: fnmatch translates the pattern to a full
match of `.*\.evtx`, i.e. a case-sensitive suffix test.  The pattern
looks only at the name, so directories match as well as files.
The suffix test is stated on the character sequence of the name. -/
def matchesGlob (name : String) : Bool := ".evtx".data.isSuffixOf name.data

/-- `list(dir_path.glob("*.evtx"))` at line 23: the immediate entries
whose name matches, in enumeration order. -/
def globEvtx (entries : List Entry) : List Entry :=
  entries.filter (fun e => matchesGlob e.name)

/-- Lines 41-46: open the file, read 8 bytes into `header`, and compare
`header[:4]` with the magic value; a failure of open or read is caught
at line 47 and reported.  `f.read(8)` returns the first
`min 8 (content.length)` bytes, hence `content.take 8`. -/
def checkSignature (e : Entry) : Report :=
  match e.openResult with
  | some msg => .errorReading msg
  | none =>
      if (e.content.take 8).take 4 = MAGIC then .validSignature
      else .warningInvalid

/-- Lines 33-48, the body of the loop for one matched entry: print the
name, then the size (evaluating `stat()`, which may raise — modelled as
the `some msg` exception component, in which case only the name was
printed), then the signature check whose failures are caught locally. -/
def processEntry (e : Entry) : List Report × Option String :=
  match e.statResult with
  | .error msg => ([.fileName e.name], some msg)
  | .ok n => ([.fileName e.name, .fileSize n, checkSignature e], none)

/-- Line 32, the `for` loop over the matched entries: each entry is
processed in order; an uncaught exception (only `stat` can raise one)
aborts the loop, discarding the remaining entries. -/
def processEntries : List Entry → List Report × Option String
  | [] => ([], none)
  | e :: rest =>
      match processEntry e with
      | (r, some msg) => (r, some msg)
      | (r, none) => (r ++ (processEntries rest).1, (processEntries rest).2)

/-- The whole of `read_evtx_files` (lines 10-48).  On a missing path the
check at line 18 reports and returns.  On an existing non-directory,
`Path.glob` yields an empty iterator (the selector of pathlib returns
`iter([])` when the parent is not a directory), so the scan takes the
`if not evtx_files` branch at line 25.  Otherwise it reports the count
and the separator line and runs the per-entry loop. -/
def read_evtx_files (t : Target) (directory : String) : List Report × Option String :=
  match t with
  | .missing => ([.errorMissing directory], none)
  | .nonDir => ([.noFiles directory], none)
  | .dir entries =>
      if globEvtx entries = [] then ([.noFiles directory], none)
      else
        (.foundCount (globEvtx entries).length :: .separator ::
           (processEntries (globEvtx entries)).1,
         (processEntries (globEvtx entries)).2)

/-- The check at line 18: the scan body continues past the initial
check exactly when `dir_path.exists()` is true, i.e. the target is not
missing (the code never tests `is_dir`). -/
def passesInitialCheck (t : Target) : Bool :=
  match t with
  | .missing => false
  | _ => true

/-- Whether the target is an existing directory. -/
def isDirTarget (t : Target) : Bool :=
  match t with
  | .dir _ => true
  | _ => false

/-- Whether the stat call on the entry succeeds. -/
def statOk (e : Entry) : Bool :=
  match e.statResult with
  | .ok _ => true
  | .error _ => false

/-- Extracts the name announced by a per-file name report, if any. -/
def nameOf : Report → Option String
  | .fileName n => some n
  | _ => none

/-- The base names the scan output mentions, in order. -/
def reportedNames (rs : List Report) : List String := rs.filterMap nameOf

/-- A filesystem operation the scan can issue.  The three mutating
operations exist in the vocabulary but are never emitted by the scan:
every file is opened with mode `rb` (line 41). -/
inductive FSOp where
  | checkPathExists : FSOp
  | listDir : FSOp
  | statEntry : String → FSOp
  | openForRead : String → FSOp
  | readBytes : String → Nat → FSOp
  | closeFile : String → FSOp
  | writeFile : String → FSOp
  | deleteFile : String → FSOp
  | createFile : String → FSOp
  deriving Repr, DecidableEq

/-- Whether the operation mutates filesystem or process-wide state. -/
def FSOp.mutatesState : FSOp → Bool
  | .writeFile _ => true
  | .deleteFile _ => true
  | .createFile _ => true
  | _ => false

/-- The filesystem operations performed for one matched entry:
`stat()` at line 34, then (if it did not raise) the open at line 41,
and on success the read of 8 bytes and the close performed by the
`with` block. -/
def entryTrace (e : Entry) : List FSOp :=
  match e.statResult with
  | .error _ => [.statEntry e.name]
  | .ok _ =>
      match e.openResult with
      | some _ => [.statEntry e.name, .openForRead e.name]
      | none => [.statEntry e.name, .openForRead e.name,
                 .readBytes e.name 8, .closeFile e.name]

/-- The operations of the per-entry loop; a `stat` failure aborts it. -/
def entriesTrace : List Entry → List FSOp
  | [] => []
  | e :: rest =>
      match e.statResult with
      | .error _ => [.statEntry e.name]
      | .ok _ => entryTrace e ++ entriesTrace rest

/-- Every filesystem operation one scan issues, in order: the existence
check at line 18, then the directory listing at line 23, then the loop. -/
def scanTrace (t : Target) : List FSOp :=
  match t with
  | .missing => [.checkPathExists]
  | .nonDir => [.checkPathExists, .listDir]
  | .dir entries => .checkPathExists :: .listDir :: entriesTrace (globEvtx entries)

/-! ## Basic lemmas about the per-entry loop -/

lemma statOk_iff (e : Entry) : statOk e = true ↔ ∃ n, e.statResult = .ok n := by
  unfold statOk
  cases h : e.statResult <;> simp

lemma processEntry_ok (e : Entry) (n : Nat) (h : e.statResult = .ok n) :
    processEntry e = ([.fileName e.name, .fileSize n, checkSignature e], none) := by
  simp [processEntry, h]

lemma processEntry_err (e : Entry) (msg : String) (h : e.statResult = .error msg) :
    processEntry e = ([.fileName e.name], some msg) := by
  simp [processEntry, h]

lemma processEntries_cons_ok (e : Entry) (rest : List Entry) (n : Nat)
    (h : e.statResult = .ok n) :
    processEntries (e :: rest) =
      (Report.fileName e.name :: Report.fileSize n :: checkSignature e ::
         (processEntries rest).1,
       (processEntries rest).2) := by
  simp [processEntries, processEntry_ok e n h]

lemma processEntries_cons_err (e : Entry) (rest : List Entry) (msg : String)
    (h : e.statResult = .error msg) :
    processEntries (e :: rest) = ([.fileName e.name], some msg) := by
  simp [processEntries, processEntry_err e msg h]

lemma checkSignature_openFail (e : Entry) (msg : String) (h : e.openResult = some msg) :
    checkSignature e = .errorReading msg := by
  simp [checkSignature, h]

lemma processEntries_append (ms₁ rest : List Entry)
    (h : ∀ x ∈ ms₁, statOk x = true) :
    processEntries (ms₁ ++ rest) =
      ((processEntries ms₁).1 ++ (processEntries rest).1, (processEntries rest).2) := by
  induction ms₁ with
  | nil => simp [processEntries]
  | cons e ms ih =>
      obtain ⟨n, hn⟩ := (statOk_iff e).1 (h e (by simp))
      rw [List.cons_append, processEntries_cons_ok e (ms ++ rest) n hn,
          processEntries_cons_ok e ms n hn,
          ih (fun x hx => h x (by simp [hx]))]
      simp

@[simp] lemma nameOf_fileName (s : String) : nameOf (.fileName s) = some s := rfl

@[simp] lemma nameOf_fileSize (n : Nat) : nameOf (.fileSize n) = none := rfl

lemma nameOf_checkSignature (e : Entry) : nameOf (checkSignature e) = none := by
  rcases h : e.openResult with _ | msg
  · by_cases hc : (e.content.take 8).take 4 = MAGIC <;>
      simp [checkSignature, h, hc, nameOf]
  · simp [checkSignature, h, nameOf]

lemma reportedNames_processEntries (ms : List Entry)
    (h : ∀ x ∈ ms, statOk x = true) :
    reportedNames (processEntries ms).1 = ms.map (fun e => e.name) := by
  induction ms with
  | nil => simp [processEntries, reportedNames]
  | cons e rest ih =>
      obtain ⟨n, hn⟩ := (statOk_iff e).1 (h e (by simp))
      rw [processEntries_cons_ok e rest n hn]
      have ihr := ih (fun x hx => h x (by simp [hx]))
      simp only [reportedNames, List.filterMap_cons] at ihr ⊢
      simp [nameOf_fileName, nameOf_fileSize, nameOf_checkSignature, ihr]

/-! ## The claims -/

/-- C1: for a matched entry whose stat succeeded and whose first 8 bytes
are read successfully, the per-entry report contains the
valid-signature line iff the first 4 of those bytes equal the fixed
magic value; any other first 4 bytes yield the warning line and never
the valid line, and a file shorter than 4 bytes always falls in the
latter case. -/
theorem C1_signature_iff_magic (e : Entry) (n : Nat)
    (hstat : e.statResult = .ok n) (hopen : e.openResult = none) :
    (Report.validSignature ∈ (processEntry e).1 ↔
       (e.content.take 8).take 4 = MAGIC) ∧
    ((e.content.take 8).take 4 ≠ MAGIC →
       Report.warningInvalid ∈ (processEntry e).1 ∧
       Report.validSignature ∉ (processEntry e).1) ∧
    (e.content.length < 4 → (e.content.take 8).take 4 ≠ MAGIC) := by
  rw [processEntry_ok e n hstat]
  refine ⟨?_, ?_, ?_⟩
  · by_cases hc : (e.content.take 8).take 4 = MAGIC <;>
      simp [checkSignature, hopen, hc]
  · intro hc
    simp [checkSignature, hopen, hc]
  · intro hlen heq
    have hlen4 : ((e.content.take 8).take 4).length = MAGIC.length := by rw [heq]
    simp [List.length_take, MAGIC] at hlen4
    omega

/-- Witness for C1 at a concrete entry whose 8 bytes start with the
magic value. -/
theorem C1_signature_iff_magic_witness :
    Report.validSignature ∈
      (processEntry
        { name := "a.evtx", isDir := false,
          content := [69, 108, 102, 70, 9, 9, 9, 9],
          statResult := Except.ok 8, openResult := none }).1 :=
  (C1_signature_iff_magic
    { name := "a.evtx", isDir := false,
      content := [69, 108, 102, 70, 9, 9, 9, 9],
      statResult := Except.ok 8, openResult := none } 8 rfl rfl).1.mpr (by decide)

/-- C2: on a missing path the scan emits exactly the missing-directory
report, lists no file, reports no count, and raises no exception. -/
theorem C2_missing_directory (d : String) :
    read_evtx_files Target.missing d = ([Report.errorMissing d], none) ∧
    reportedNames (read_evtx_files Target.missing d).1 = [] ∧
    (∀ n, Report.foundCount n ∉ (read_evtx_files Target.missing d).1) := by
  refine ⟨rfl, rfl, ?_⟩
  intro n
  simp [read_evtx_files]

/-- C6: on an existing directory with no entry matching the filter, the
scan emits exactly the no-files report: no per-entry report and no
count. -/
theorem C6_zero_matches (entries : List Entry) (d : String)
    (h : globEvtx entries = []) :
    read_evtx_files (Target.dir entries) d = ([Report.noFiles d], none) ∧
    reportedNames (read_evtx_files (Target.dir entries) d).1 = [] ∧
    (∀ n, Report.foundCount n ∉ (read_evtx_files (Target.dir entries) d).1) := by
  refine ⟨by simp [read_evtx_files, h], ?_, ?_⟩
  · simp [read_evtx_files, h, reportedNames, nameOf]
  · intro n
    simp [read_evtx_files, h]

/-- Witness for C6: a directory holding only a non-matching entry. -/
theorem C6_zero_matches_witness :
    read_evtx_files
      (Target.dir
        [{ name := "notes.txt", isDir := false,
           content := [1], statResult := Except.ok 1, openResult := none }])
      "evtx_files" = ([Report.noFiles "evtx_files"], none) :=
  (C6_zero_matches
    [{ name := "notes.txt", isDir := false,
       content := [1], statResult := Except.ok 1, openResult := none }]
    "evtx_files" (by decide)).1

/-- C7: the signature verdict depends on the file content only through
its first 4 bytes: two contents agreeing on their first 4 bytes give
the same report, whatever stands in bytes 5 through 8. -/
theorem C7_only_first_four_bytes (e : Entry) (c₁ c₂ : List Nat)
    (h : c₁.take 4 = c₂.take 4) :
    checkSignature { e with content := c₁ } =
      checkSignature { e with content := c₂ } := by
  have h8 : (c₁.take 8).take 4 = (c₂.take 8).take 4 := by
    rw [List.take_take, List.take_take]
    simpa using h
  unfold checkSignature
  cases e.openResult <;> simp [h8]

/-- Witness for C7: two contents equal on the first 4 bytes but
different on bytes 5 through 8. -/
theorem C7_only_first_four_bytes_witness :
    checkSignature
      { name := "a.evtx", isDir := false,
        content := [69, 108, 102, 70, 0, 0, 0, 0],
        statResult := Except.ok 8, openResult := none } =
    checkSignature
      { name := "a.evtx", isDir := false,
        content := [69, 108, 102, 70, 9, 9, 9, 9],
        statResult := Except.ok 8, openResult := none } :=
  C7_only_first_four_bytes
    { name := "a.evtx", isDir := false,
      content := [69, 108, 102, 70, 0, 0, 0, 0],
      statResult := Except.ok 8, openResult := none }
    [69, 108, 102, 70, 0, 0, 0, 0] [69, 108, 102, 70, 9, 9, 9, 9] (by decide)

/-- C3: a matched entry whose open or read fails produces exactly the
name, size and error report for that entry, and the scan continues:
every remaining matched entry contributes exactly the reports it would
contribute anyway, and the failure never raises (the exception
component of the scan is the one of the remaining entries, not of the
failing read). -/
theorem C3_read_failure_is_local (entries ms₁ ms₂ : List Entry) (e : Entry)
    (n : Nat) (msg d : String)
    (hok : ∀ x ∈ ms₁, statOk x = true)
    (hstat : e.statResult = .ok n)
    (hopen : e.openResult = some msg)
    (hglob : globEvtx entries = ms₁ ++ e :: ms₂) :
    read_evtx_files (Target.dir entries) d =
      (Report.foundCount (ms₁ ++ e :: ms₂).length :: Report.separator ::
         ((processEntries ms₁).1 ++
           Report.fileName e.name :: Report.fileSize n ::
             Report.errorReading msg :: (processEntries ms₂).1),
       (processEntries ms₂).2) := by
  simp only [read_evtx_files, hglob]
  rw [if_neg (by simp)]
  rw [processEntries_append ms₁ (e :: ms₂) hok,
      processEntries_cons_ok e ms₂ n hstat,
      checkSignature_openFail e msg hopen]

/-- Witness for C3: two matched entries, the first unreadable; the
second is still reported in full. -/
theorem C3_read_failure_is_local_witness :
    read_evtx_files
      (Target.dir
        [{ name := "bad.evtx", isDir := false, content := [],
           statResult := Except.ok 3, openResult := some "Permission denied" },
         { name := "good.evtx", isDir := false, content := [69, 108, 102, 70, 1],
           statResult := Except.ok 5, openResult := none }]) "evtx_files" =
      ([Report.foundCount 2, Report.separator,
        Report.fileName "bad.evtx", Report.fileSize 3,
        Report.errorReading "Permission denied",
        Report.fileName "good.evtx", Report.fileSize 5,
        Report.validSignature], none) :=
  C3_read_failure_is_local
    [{ name := "bad.evtx", isDir := false, content := [],
       statResult := Except.ok 3, openResult := some "Permission denied" },
     { name := "good.evtx", isDir := false, content := [69, 108, 102, 70, 1],
       statResult := Except.ok 5, openResult := none }]
    []
    [{ name := "good.evtx", isDir := false, content := [69, 108, 102, 70, 1],
       statResult := Except.ok 5, openResult := none }]
    { name := "bad.evtx", isDir := false, content := [],
      statResult := Except.ok 3, openResult := some "Permission denied" }
    3 "Permission denied" "evtx_files"
    (by simp) rfl rfl (by decide)

/-- C4: on an existing directory whose matched entries all stat
cleanly, the scan is driven by the suffix filter alone: it reports the
count of matched entries, names exactly the matched entries once each
in enumeration order, and never names a non-matching entry. -/
theorem C4_exact_match_listing (entries : List Entry) (d : String)
    (hok : ∀ x ∈ globEvtx entries, statOk x = true)
    (hne : globEvtx entries ≠ []) :
    globEvtx entries = entries.filter (fun e => matchesGlob e.name) ∧
    Report.foundCount (globEvtx entries).length ∈
      (read_evtx_files (Target.dir entries) d).1 ∧
    reportedNames (read_evtx_files (Target.dir entries) d).1 =
      (globEvtx entries).map (fun e => e.name) ∧
    ∀ e ∈ entries, matchesGlob e.name = false →
      e.name ∉ reportedNames (read_evtx_files (Target.dir entries) d).1 := by
  have hout : (read_evtx_files (Target.dir entries) d).1 =
      Report.foundCount (globEvtx entries).length :: Report.separator ::
        (processEntries (globEvtx entries)).1 := by
    simp [read_evtx_files, hne]
  have hnames : reportedNames (read_evtx_files (Target.dir entries) d).1 =
      (globEvtx entries).map (fun e => e.name) := by
    rw [hout]
    simp only [reportedNames, List.filterMap_cons, nameOf]
    exact reportedNames_processEntries (globEvtx entries) hok
  refine ⟨rfl, ?_, hnames, ?_⟩
  · rw [hout]
    exact List.mem_cons_self _ _
  · intro e _ hm hmem
    rw [hnames] at hmem
    obtain ⟨x, hx, hxe⟩ := List.mem_map.1 hmem
    have hxg : matchesGlob x.name = true := by
      simpa using (List.mem_filter.1 hx).2
    rw [hxe] at hxg
    simp [hm] at hxg

/-- Witness for C4: one matching and one non-matching entry. -/
theorem C4_exact_match_listing_witness :
    Report.foundCount 1 ∈
      (read_evtx_files
        (Target.dir
          [{ name := "a.evtx", isDir := false, content := [69, 108, 102, 70],
             statResult := Except.ok 4, openResult := none },
           { name := "notes.txt", isDir := false, content := [1],
             statResult := Except.ok 1, openResult := none }]) "evtx_files").1 :=
  (C4_exact_match_listing
    [{ name := "a.evtx", isDir := false, content := [69, 108, 102, 70],
       statResult := Except.ok 4, openResult := none },
     { name := "notes.txt", isDir := false, content := [1],
       statResult := Except.ok 1, openResult := none }]
    "evtx_files" (by decide) (by decide)).2.1

/-- C5 fails as stated: the initial check at line 18 tests only
existence, so an existing path that is not a directory passes it; the
scan then reaches the listing step and reports that no matching files
were found, instead of stopping at the initial check. -/
theorem C5_counterexample :
    passesInitialCheck Target.nonDir = true ∧
    isDirTarget Target.nonDir = false ∧
    read_evtx_files Target.nonDir "evtx_files" =
      ([Report.noFiles "evtx_files"], none) :=
  ⟨rfl, rfl, rfl⟩

/-- C5 amended: the scan proceeds past its initial check exactly when
the target exists, whether or not it is a directory; and for every
existing path that is not a directory the glob yields no entries, so
the scan reports that no matching files were found and performs no
per-entry reporting. -/
theorem C5_initial_check_existence_only (d : String) :
    (∀ t, passesInitialCheck t = true ↔ t ≠ Target.missing) ∧
    read_evtx_files Target.nonDir d = ([Report.noFiles d], none) ∧
    reportedNames (read_evtx_files Target.nonDir d).1 = [] := by
  refine ⟨?_, rfl, rfl⟩
  intro t
  cases t <;> simp [passesInitialCheck]

/-! ## The trace of filesystem operations is read-only -/

lemma entryTrace_no_mutation (e : Entry) (op : FSOp) (h : op ∈ entryTrace e) :
    op.mutatesState = false := by
  rcases hs : e.statResult with msg | n
  · simp [entryTrace, hs] at h
    subst h
    rfl
  · rcases ho : e.openResult with _ | msg
    · simp [entryTrace, hs, ho] at h
      rcases h with h | h | h | h <;> subst h <;> rfl
    · simp [entryTrace, hs, ho] at h
      rcases h with h | h <;> subst h <;> rfl

lemma entriesTrace_no_mutation (ms : List Entry) (op : FSOp)
    (h : op ∈ entriesTrace ms) : op.mutatesState = false := by
  induction ms with
  | nil => simp [entriesTrace] at h
  | cons e rest ih =>
      rcases hs : e.statResult with msg | n
      · simp [entriesTrace, hs] at h
        subst h
        rfl
      · simp [entriesTrace, hs] at h
        rcases h with h | h
        · exact entryTrace_no_mutation e op h
        · exact ih h

/-- C8: every filesystem operation any scan issues, on any target, is a
read-only operation: the trace holds existence checks, listings, stats,
read-mode opens, reads and closes, and never a write, delete or
creation. -/
theorem C8_scan_is_read_only (t : Target) (op : FSOp) (h : op ∈ scanTrace t) :
    op.mutatesState = false := by
  cases t with
  | missing =>
      simp [scanTrace] at h
      subst h
      rfl
  | nonDir =>
      simp [scanTrace] at h
      rcases h with h | h <;> subst h <;> rfl
  | dir entries =>
      simp [scanTrace] at h
      rcases h with h | h | h
      · subst h
        rfl
      · subst h
        rfl
      · exact entriesTrace_no_mutation _ op h

/-- Witness for C8 at a concrete target and operation. -/
theorem C8_scan_is_read_only_witness :
    FSOp.checkPathExists ∈ scanTrace Target.missing ∧
    FSOp.mutatesState FSOp.checkPathExists = false :=
  ⟨by decide, C8_scan_is_read_only Target.missing FSOp.checkPathExists (by decide)⟩

/-- C9: the try block covers only the open and read; when a matched
entry has a stat call that raises, the scan has printed only the name of that entry, the
exception escapes the whole scan, and none of the remaining matched
entries is processed (their reports are absent from the output). -/
theorem C9_stat_failure_aborts (entries ms₁ ms₂ : List Entry) (e : Entry)
    (msg d : String)
    (hok : ∀ x ∈ ms₁, statOk x = true)
    (hstat : e.statResult = .error msg)
    (hglob : globEvtx entries = ms₁ ++ e :: ms₂) :
    read_evtx_files (Target.dir entries) d =
      (Report.foundCount (ms₁ ++ e :: ms₂).length :: Report.separator ::
         ((processEntries ms₁).1 ++ [Report.fileName e.name]),
       some msg) := by
  simp only [read_evtx_files, hglob]
  rw [if_neg (by simp)]
  rw [processEntries_append ms₁ (e :: ms₂) hok,
      processEntries_cons_err e ms₂ msg hstat]

/-- Witness for C9: stat fails on the first matched entry; the second
matched entry is never reported and the exception escapes. -/
theorem C9_stat_failure_aborts_witness :
    read_evtx_files
      (Target.dir
        [{ name := "gone.evtx", isDir := false, content := [],
           statResult := Except.error "No such file or directory",
           openResult := some "No such file or directory" },
         { name := "good.evtx", isDir := false, content := [69, 108, 102, 70, 1],
           statResult := Except.ok 5, openResult := none }]) "evtx_files" =
      ([Report.foundCount 2, Report.separator, Report.fileName "gone.evtx"],
       some "No such file or directory") :=
  C9_stat_failure_aborts
    [{ name := "gone.evtx", isDir := false, content := [],
       statResult := Except.error "No such file or directory",
       openResult := some "No such file or directory" },
     { name := "good.evtx", isDir := false, content := [69, 108, 102, 70, 1],
       statResult := Except.ok 5, openResult := none }]
    []
    [{ name := "good.evtx", isDir := false, content := [69, 108, 102, 70, 1],
       statResult := Except.ok 5, openResult := none }]
    { name := "gone.evtx", isDir := false, content := [],
      statResult := Except.error "No such file or directory",
      openResult := some "No such file or directory" }
    "No such file or directory" "evtx_files"
    (by simp) rfl (by decide)

/-- C10: the glob filter looks only at the name, so a subdirectory
whose name ends in the suffix is counted among the matched entries and
processed like any other: its name and size are reported, and the
failing binary open (a directory cannot be opened for reading) is
caught by the per-entry error path while the scan continues. -/
theorem C10_directory_entry_matched (entries rest : List Entry) (e : Entry)
    (n : Nat) (msg d : String)
    (hdir : e.isDir = true)
    (hmatch : matchesGlob e.name = true)
    (hstat : e.statResult = .ok n)
    (hopen : e.openResult = some msg)
    (hglob : globEvtx entries = e :: rest) :
    e ∈ globEvtx entries ∧
    read_evtx_files (Target.dir entries) d =
      (Report.foundCount (e :: rest).length :: Report.separator ::
         Report.fileName e.name :: Report.fileSize n ::
           Report.errorReading msg :: (processEntries rest).1,
       (processEntries rest).2) := by
  constructor
  · rw [hglob]
    exact List.mem_cons_self _ _
  · simp only [read_evtx_files, hglob]
    rw [if_neg (by simp)]
    rw [processEntries_cons_ok e rest n hstat,
        checkSignature_openFail e msg hopen]

/-- Witness for C10: a directory named with the suffix, alone in the
scanned directory. -/
theorem C10_directory_entry_matched_witness :
    read_evtx_files
      (Target.dir
        [{ name := "logs.evtx", isDir := true, content := [],
           statResult := Except.ok 4096, openResult := some "Is a directory" }])
      "evtx_files" =
      ([Report.foundCount 1, Report.separator, Report.fileName "logs.evtx",
        Report.fileSize 4096, Report.errorReading "Is a directory"], none) :=
  (C10_directory_entry_matched
    [{ name := "logs.evtx", isDir := true, content := [],
       statResult := Except.ok 4096, openResult := some "Is a directory" }]
    []
    { name := "logs.evtx", isDir := true, content := [],
      statResult := Except.ok 4096, openResult := some "Is a directory" }
    4096 "Is a directory" "evtx_files"
    rfl (by decide) rfl rfl (by decide)).2

end EvtxScan
